import Mathlib

/-!
# Verification of the json-logic-plus core

Shallow embedding of the repository's source files:

* `src/op/arithmetic.rs` — JSON-number classification, checked addition, the
  strict `add` operator and the chained comparison operators;
* `src/op/func.rs` — the `defn` (function-definition) operator: `Function`,
  `Identifier`, parsing, serialization and (unimplemented) evaluation;
* `src/func.rs` — the owned `Identifier` variant (namespace `FuncMod` below);
* `src/error.rs` — the error taxonomy;
* `src/op/equality.rs` — structural equality operators.

Machine integers (`u64`, `i64`) are embedded as `Nat`/`Int` with explicit
bounds and wrap-around where the source casts.  Rust's `f64` is embedded by
the executable model `F64` below: finite values are exact rationals and an
addition/subtraction whose exact result reaches the IEEE-754 overflow
threshold `2^1024` produces an infinity.  This keeps every value the claims
exercise (small integers, `2^64`-scale sums, `f64::MAX + f64::MAX`) on the
same side of finite/non-finite as real IEEE-754 arithmetic; rounding of
in-range results and of int→float casts is not modelled (conversions are
exact), which no claim in scope distinguishes.
-/

namespace JsonLogicPlus

/-- Model of Rust `f64` values: a finite rational, an infinity, or NaN. -/
inductive F64 where
  | finite (q : ℚ)
  | inf
  | negInf
  | nan
deriving DecidableEq

/-- `f64::MAX` = `(2 - 2⁻⁵²)·2¹⁰²³` as an exact rational. -/
def F64_MAX_Q : ℚ := 2 ^ 1024 - 2 ^ 971

/-- The IEEE-754 binary64 overflow threshold: exact results whose magnitude
reaches `2^1024` overflow to an infinity. -/
def F64_OVERFLOW : ℚ := 2 ^ 1024

/-- `f64` addition in the model: exact rational addition with overflow to
infinity at the IEEE threshold.  Infinity/NaN arms follow IEEE-754. -/
def F64.add : F64 → F64 → F64
  | .finite a, .finite b =>
      if F64_OVERFLOW ≤ a + b then .inf
      else if a + b ≤ -F64_OVERFLOW then .negInf
      else .finite (a + b)
  | .nan, _ => .nan
  | _, .nan => .nan
  | .inf, .negInf => .nan
  | .negInf, .inf => .nan
  | .inf, _ => .inf
  | _, .inf => .inf
  | .negInf, _ => .negInf
  | _, .negInf => .negInf

/-- `f64` subtraction in the model, mirroring `F64.add`. -/
def F64.sub : F64 → F64 → F64
  | .finite a, .finite b =>
      if F64_OVERFLOW ≤ a - b then .inf
      else if a - b ≤ -F64_OVERFLOW then .negInf
      else .finite (a - b)
  | .nan, _ => .nan
  | _, .nan => .nan
  | .inf, .inf => .nan
  | .negInf, .negInf => .nan
  | .inf, _ => .inf
  | _, .inf => .negInf
  | .negInf, _ => .negInf
  | _, .negInf => .inf

/-- Rust `f64::is_finite`. -/
def F64.isFinite : F64 → Bool
  | .finite _ => true
  | _ => false

/-- Rust `u64 as f64` (conversion exact in the model). -/
def u64_to_f64 (n : Nat) : F64 := .finite (n : ℚ)

/-- Rust `i64 as f64` (conversion exact in the model). -/
def i64_to_f64 (i : Int) : F64 := .finite (i : ℚ)

/-- `serde_json::Number`: a JSON number tagged as it is in serde — an
unsigned integer (`N::PosInt(u64)`), a signed (always negative in practice)
integer (`N::NegInt(i64)`), or a finite float (`N::Float(f64)`). -/
inductive Number where
  | PosInt (n : Nat)
  | NegInt (i : Int)
  | Float (q : ℚ)
deriving DecidableEq

/-- Representation invariant of `serde_json::Number`: `PosInt` fits `u64`,
`NegInt` fits `i64` and is negative (serde only constructs `NegInt` for
values `< 0`), floats are finite (enforced by `Number::from_f64`). -/
def Number.WF : Number → Prop
  | .PosInt n => n < 2 ^ 64
  | .NegInt i => -(2 ^ 63) ≤ i ∧ i < 0
  | .Float _ => True

/-- `serde_json::Number::as_u64`. -/
def Number.as_u64 : Number → Option Nat
  | .PosInt n => some n
  | _ => none

/-- `serde_json::Number::as_i64`: a `PosInt` qualifies when it fits `i64`. -/
def Number.as_i64 : Number → Option Int
  | .PosInt n => if n ≤ 2 ^ 63 - 1 then some (n : Int) else none
  | .NegInt i => some i
  | .Float _ => none

/-- `serde_json::Number::as_f64`: always succeeds (casts are exact in the
model). -/
def Number.as_f64 : Number → Option F64
  | .PosInt n => some (u64_to_f64 n)
  | .NegInt i => some (i64_to_f64 i)
  | .Float q => some (.finite q)

/-- `Number::from(u64)`. -/
def Number.from_u64 (n : Nat) : Number := .PosInt n

/-- `Number::from(i64)`: serde stores non-negative values as `PosInt`. -/
def Number.from_i64 (i : Int) : Number :=
  if i < 0 then .NegInt i else .PosInt i.toNat

/-- `Number::from_f64`: `Some` exactly for finite floats. -/
def Number.from_f64 : F64 → Option Number
  | .finite q => some (.Float q)
  | _ => none

/-- `JsonNumber` from `src/op/arithmetic.rs`: the three-way classification of
a JSON number. -/
inductive JsonNumber where
  | U64 (n : Nat)
  | I64 (i : Int)
  | F64 (x : F64)
deriving DecidableEq

/-- `JsonNumber::from_number`: `as_u64`, else `as_i64`, else `as_f64`. -/
def JsonNumber.from_number (n : Number) : Option JsonNumber :=
  ((n.as_u64.map JsonNumber.U64).or
    (n.as_i64.map JsonNumber.I64)).or
    (n.as_f64.map JsonNumber.F64)

/-- Rust `u64::checked_add`. -/
def u64_checked_add (a b : Nat) : Option Nat :=
  if a + b < 2 ^ 64 then some (a + b) else none

/-- Rust `u64::checked_sub`. -/
def u64_checked_sub (a b : Nat) : Option Nat :=
  if b ≤ a then some (a - b) else none

/-- Rust `i64::checked_add`. -/
def i64_checked_add (a b : Int) : Option Int :=
  if -(2 ^ 63) ≤ a + b ∧ a + b < 2 ^ 63 then some (a + b) else none

/-- Rust `i64::checked_sub`. -/
def i64_checked_sub (a b : Int) : Option Int :=
  if -(2 ^ 63) ≤ a - b ∧ a - b < 2 ^ 63 then some (a - b) else none

/-- Rust `i64::checked_abs`: fails only at `i64::MIN`. -/
def i64_checked_abs (i : Int) : Option Int :=
  if i = -(2 ^ 63) then none else some (i.natAbs : Int)

/-- Rust `u64 as i64` (two's-complement wrap). -/
def u64_as_i64 (n : Nat) : Int :=
  if n < 2 ^ 63 then (n : Int) else (n : Int) - 2 ^ 64

/-- Rust `i64 as u64` (two's-complement wrap). -/
def i64_as_u64 (i : Int) : Nat := (i % 2 ^ 64).toNat

/-- `checked_add`, `(U64, U64)` arm: checked `u64` addition, falling back to
float addition (`None` if that is non-finite). -/
def addU64U64 (first second : Nat) : Option Number :=
  ((u64_checked_add first second).map Number.from_u64).or
    (Number.from_f64 (F64.add (u64_to_f64 first) (u64_to_f64 second)))

/-- `checked_add`, `(U64, I64)` arm.  For a negative `second`: subtract the
magnitude, retry as signed subtraction, and finally fall back to the float
expression `first as f64 - second as f64` written in the source (note: the
*original* negative `second`, as in the source).  For a non-negative
`second`: checked addition with float-addition fallback. -/
def addU64I64 (first : Nat) (second : Int) : Option Number :=
  if second < 0 then
    (((i64_checked_abs second).map i64_as_u64).bind (fun sec =>
      ((u64_checked_sub first sec).map Number.from_u64).or
        (((i64_checked_sub (u64_as_i64 first) (u64_as_i64 sec))).map Number.from_i64))).or
      (Number.from_f64 (F64.sub (u64_to_f64 first) (i64_to_f64 second)))
  else
    ((u64_checked_add first (i64_as_u64 second)).map Number.from_u64).or
      (Number.from_f64 (F64.add (u64_to_f64 first) (i64_to_f64 second)))

/-- `checked_add`, `(I64, I64)` arm.  For a negative `second`: `checked_abs`
then checked subtraction, falling back to `first as f64 - second as f64`
(again the *original* negative `second`, as in the source).  Otherwise
checked addition with float-addition fallback. -/
def addI64I64 (first second : Int) : Option Number :=
  if second < 0 then
    (((i64_checked_abs second).bind (fun sec => i64_checked_sub first sec)).map Number.from_i64).or
      (Number.from_f64 (F64.sub (i64_to_f64 first) (i64_to_f64 second)))
  else
    ((i64_checked_add first second).map Number.from_i64).or
      (Number.from_f64 (F64.add (i64_to_f64 first) (i64_to_f64 second)))

/-- `checked_add`, float arm (`_`): add both values as floats; `None` when
the result is non-finite. -/
def addAsF64 (self v : Number) : Option Number :=
  self.as_f64.bind (fun first =>
    v.as_f64.bind (fun second => Number.from_f64 (F64.add first second)))

/-- `<Number as CheckedAdd>::checked_add` from `src/op/arithmetic.rs`.

The source's `(I64, U64)` arm is `Number::from(second).checked_add(&first.into())`;
that self-call is unfolded one step here: `Number::from(second)` is a
`PosInt` and `first.into()` is `NegInt first` when `first < 0` (else
`PosInt`), so the call lands in the `(U64, I64)` or `(U64, U64)` arm. -/
def Number.checked_add (self v : Number) : Option Number :=
  match JsonNumber.from_number self, JsonNumber.from_number v with
  | none, _ => none
  | _, none => none
  | some (.U64 first), some (.U64 second) => addU64U64 first second
  | some (.U64 first), some (.I64 second) => addU64I64 first second
  | some (.I64 first), some (.I64 second) => addI64I64 first second
  | some (.I64 first), some (.U64 second) =>
      if first < 0 then addU64I64 second first
      else addU64U64 second (i64_as_u64 first)
  | some (.F64 _), some _ => addAsF64 self v
  | some _, some (.F64 _) => addAsF64 self v

/-- `serde_json::Value`: the JSON value tree.  Objects are embedded as
insertion-ordered association lists (serde's string-keyed map). -/
inductive Value where
  | null
  | bool (b : Bool)
  | number (n : Number)
  | string (s : String)
  | array (l : List Value)
  | object (o : List (String × Value))

/-- Is the value a JSON number (`Value::Number`)? -/
def Value.isNumber : Value → Bool
  | .number _ => true
  | _ => false

/-- `serde_json::Map::get`: look a key up in an object. -/
def map_get (o : List (String × Value)) (k : String) : Option Value :=
  (o.find? (fun p => p.1 == k)).map (fun p => p.2)

/-- `NumParams` — the arity specification attached to operators and
functions.  Modelled from the spec: the defining module (`src/op/mod.rs`) is
not under `src/`; the spec (§3 Arity specification) lists exact count,
at-least, bounded range and variadic, and the sources use
`NumParams::Exactly` and `NumParams::Unary`. -/
inductive NumParams where
  | Unary
  | Exactly (n : Nat)
  | AtLeast (n : Nat)
  | Between (lo hi : Nat)
  | Variadic
deriving DecidableEq

/-- The error taxonomy from `src/error.rs`. -/
inductive Error where
  | InvalidData (value : Value) (reason : String)
  | InvalidIdentifier (s : String)
  | InvalidOperation (key : String) (reason : String)
  | InvalidVariable (value : Value) (reason : String)
  | InvalidVariableKey (value : Value) (reason : String)
  | InvalidArgument (value : Value) (operation : String) (reason : String)
  | InvalidVarMap (value : Value)
  | OverflowBinaryOp (op : String) (first second : String)
  | UnexpectedError (msg : String)
  | WrongArgumentCount (expected : NumParams) (actual : Nat)

/-- Display of a `serde_json::Number` (used in `OverflowBinaryOp` payloads
and JSON serialization).  Integer rendering is exact; float rendering is
simplified (serde's ryu shortest-representation algorithm is not modelled —
no claim inspects a rendered float). -/
def number_display : Number → String
  | .PosInt n => toString n
  | .NegInt i => toString i
  | .Float q => toString q

/-- JSON string escaping for serialization (simplified: only `"` and `\` are
escaped; no claim serializes a string containing other escapes). -/
def escape_char (c : Char) : String :=
  if c = '"' then "\\\"" else if c = '\\' then "\\\\" else String.singleton c

/-- Escape a whole string for JSON output. -/
def escape_string (s : String) : String :=
  String.join (s.data.map escape_char)

mutual

/-- `serde_json`'s `Display for Value` (compact JSON serialization), used by
`format!("{}", value)` in error messages. -/
def Value.to_string : Value → String
  | .null => "null"
  | .bool true => "true"
  | .bool false => "false"
  | .number n => number_display n
  | .string s => "\"" ++ escape_string s ++ "\""
  | .array l => "[" ++ to_string_elems l ++ "]"
  | .object o => "\x7b" ++ to_string_entries o ++ "\x7d"

/-- Serialize array elements, comma-separated. -/
def to_string_elems : List Value → String
  | [] => ""
  | [v] => Value.to_string v
  | v :: rest => Value.to_string v ++ "," ++ to_string_elems rest

/-- Serialize object entries, comma-separated. -/
def to_string_entries : List (String × Value) → String
  | [] => ""
  | [(k, v)] => "\"" ++ escape_string k ++ "\":" ++ Value.to_string v
  | (k, v) :: rest =>
      "\"" ++ escape_string k ++ "\":" ++ Value.to_string v ++ "," ++ to_string_entries rest

end

/-- `Display for Error` (the `thiserror` format strings of `src/error.rs`).
The `InvalidIdentifier` arm — the only one reachable through
`Function::from_value`'s error mapping — is rendered exactly; the arms that
would require Rust `Debug` formatting of payloads are simplified. -/
def Error.to_string : Error → String
  | .InvalidData v reason => "Invalid data - value: " ++ v.to_string ++ ", reason: " ++ reason
  | .InvalidIdentifier s =>
      "Invalid identifier '" ++ s ++
        "': identifiers must be valid utf-8 of 2 or more characters, containing no whitespace"
  | .InvalidOperation key reason => "Invalid rule - operator: '" ++ key ++ "', reason: " ++ reason
  | .InvalidVariable v reason => "Invalid variable - '" ++ v.to_string ++ "', reason: " ++ reason
  | .InvalidVariableKey v reason =>
      "Invalid variable key - '" ++ v.to_string ++ "', reason: " ++ reason
  | .InvalidArgument v operation reason =>
      "Invalid argument for '" ++ operation ++ "' - '" ++ v.to_string ++ "', reason: " ++ reason
  | .InvalidVarMap v => "Invalid variable mapping - " ++ v.to_string ++ " is not an object."
  | .OverflowBinaryOp op a b =>
      "Overflow error during operation: '" ++ op ++ "' on values '" ++ a ++ "' and '" ++ b ++ "'"
  | .UnexpectedError msg =>
      "Encountered an unexpected error. Please raise an issue on GitHub and include the following error message: " ++ msg
  | .WrongArgumentCount _ actual =>
      "Wrong argument count - actual: " ++ toString actual

/-- `add` from `src/op/arithmetic.rs`: strict addition of exactly two
operands.  The source destructures `items[0]` and `items[1]` from the operand
vector (arity is checked upstream by the parser, §4.2 of the spec); the two
operands are taken directly here. -/
def add (first second : Value) : Except Error Value :=
  match first, second with
  | .number f, .number s =>
      match Number.checked_add f s with
      | some n => .ok (.number n)
      | none => .error (.OverflowBinaryOp "add" (number_display f) (number_display s))
  | .number _, _ =>
      .error (.InvalidArgument second "add" "arguments to add must be numbers")
  | _, _ =>
      .error (.InvalidArgument first "add" "arguments to add must be numbers")

/-- Outcome of running an operator: a value, an error, or a Rust panic
(reachable in the source through out-of-bounds indexing or `todo!()`). -/
inductive Outcome where
  | ok (v : Value)
  | err (e : Error)
  | panic (msg : String)

/-- `compare` from `src/op/arithmetic.rs`: apply the comparison primitive to
two operands, or to operands (1,2) and (2,3) conjoined when the list does not
have exactly two elements.  Lists shorter than the indexed positions would
panic in the source (`index out of bounds`). -/
def compare (func : Value → Value → Bool) (items : List Value) : Outcome :=
  if items.length = 2 then
    match items with
    | a :: b :: _ => .ok (.bool (func a b))
    | _ => .panic "index out of bounds"
  else
    match items with
    | a :: b :: c :: _ => .ok (.bool (func a b && func b c))
    | _ => .panic "index out of bounds"

/-- Numeric value of a `serde_json::Number` for comparison. -/
def Number.toRat : Number → ℚ
  | .PosInt n => (n : ℚ)
  | .NegInt i => (i : ℚ)
  | .Float q => q

/-- Modelled from the spec: `js_op::abstract_lt` — the file `js_op.rs` is not
under `src/`.  The spec (§4.2) says the two-value primitive follows JS-style
loose comparison; it details only that numbers compare numerically.  The
numeric case (the only one any claim exercises) is modelled exactly; other
type combinations are modelled as `false`. -/
def abstract_lt : Value → Value → Bool
  | .number a, .number b => decide (a.toRat < b.toRat)
  | _, _ => false

/-- Modelled from the spec: `js_op::abstract_lte` (see `abstract_lt`). -/
def abstract_lte : Value → Value → Bool
  | .number a, .number b => decide (a.toRat ≤ b.toRat)
  | _, _ => false

/-- Modelled from the spec: `js_op::abstract_gt` (see `abstract_lt`). -/
def abstract_gt : Value → Value → Bool
  | .number a, .number b => decide (a.toRat > b.toRat)
  | _, _ => false

/-- Modelled from the spec: `js_op::abstract_gte` (see `abstract_lt`). -/
def abstract_gte : Value → Value → Bool
  | .number a, .number b => decide (a.toRat ≥ b.toRat)
  | _, _ => false

/-- `lt` from `src/op/arithmetic.rs`: `<` for either 2 or 3 values. -/
def lt (items : List Value) : Outcome := compare abstract_lt items

/-- `lte` from `src/op/arithmetic.rs`: `<=` for either 2 or 3 values. -/
def lte (items : List Value) : Outcome := compare abstract_lte items

/-- `gt` from `src/op/arithmetic.rs`: `>` for either 2 or 3 values. -/
def gt (items : List Value) : Outcome := compare abstract_gt items

/-- `gte` from `src/op/arithmetic.rs`: `>=` for either 2 or 3 values. -/
def gte (items : List Value) : Outcome := compare abstract_gte items

/-- `equal` from `src/op/equality.rs`: structural equality of the first two
operands (serde's `PartialEq for Value`; objects compare key-order
insensitively in serde — claims in scope never compare objects, so plain
structural equality of the embedding is used). -/
def structural_eq : Value → Value → Bool
  | .null, .null => true
  | .bool a, .bool b => a == b
  | .number a, .number b => a == b
  | .string a, .string b => a == b
  | .array a, .array b => eq_list a b
  | .object a, .object b => eq_entries a b
  | _, _ => false
where
  eq_list : List Value → List Value → Bool
    | [], [] => true
    | a :: as', b :: bs' => structural_eq a b && eq_list as' bs'
    | _, _ => false
  eq_entries : List (String × Value) → List (String × Value) → Bool
    | [], [] => true
    | (ka, va) :: as', (kb, vb) :: bs' => ka == kb && structural_eq va vb && eq_entries as' bs'
    | _, _ => false

/-- Rust `String::len`: the UTF-8 byte length of a string. -/
def rustStrLen (s : String) : Nat :=
  s.data.foldl (fun n c => n + c.utf8Size) 0

/-- Rust `char::is_whitespace`: the Unicode `White_Space` property. -/
def rustIsWhitespace (c : Char) : Bool :=
  let n := c.toNat
  n = 0x09 || n = 0x0A || n = 0x0B || n = 0x0C || n = 0x0D || n = 0x20 ||
    n = 0x85 || n = 0xA0 || n = 0x1680 || (0x2000 ≤ n && n ≤ 0x200A) ||
    n = 0x2028 || n = 0x2029 || n = 0x202F || n = 0x205F || n = 0x3000

namespace FuncMod

/-- `Identifier` from `src/func.rs` (the owned function-subsystem draft): a
validated name wrapper. -/
structure Identifier where
  value : String
deriving DecidableEq

/-- `Identifier::new` from `src/func.rs`: fails when the UTF-8 byte length
(`value.len()` in Rust) is below 2 or any character is whitespace. -/
def Identifier.new (value : String) : Except Error Identifier :=
  if rustStrLen value < 2 then .error (.InvalidIdentifier value)
  else if value.data.any rustIsWhitespace then .error (.InvalidIdentifier value)
  else .ok ⟨value⟩

end FuncMod

namespace OpFunc

/-- `Identifier` from `src/op/func.rs` (the borrowed-function draft). -/
structure Identifier where
  value : String
deriving DecidableEq

/-- `Identifier::new` from `src/op/func.rs`: same shape as the `src/func.rs`
variant but with minimum byte length 1 (`value.len() < 1`). -/
def Identifier.new (value : String) : Except Error Identifier :=
  if rustStrLen value < 1 then .error (.InvalidIdentifier value)
  else if value.data.any rustIsWhitespace then .error (.InvalidIdentifier value)
  else .ok ⟨value⟩

/-- `TryFrom<&Value> for Identifier` from `src/op/func.rs`: strings go
through `Identifier::new`, anything else is `InvalidIdentifier` carrying the
JSON rendering of the value. -/
def Identifier.try_from (value : Value) : Except Error Identifier :=
  match value with
  | .string i => Identifier.new i
  | _ => .error (.InvalidIdentifier value.to_string)

/-- `Function` from `src/op/func.rs`: a (potentially user-defined) function.
The source stores `expression` as a borrowed `&Value`; the embedding stores
the value itself. -/
structure Function where
  name : Identifier
  params : List Identifier
  expression : Value
  num_params : NumParams

/-- `Function::OPERATOR`. -/
def Function.OPERATOR : String := "defn"

/-- `Function::get_in_params`: the value under the `"defn"` key of a
single-key object, `none` otherwise (objects with more than one key can't be
function definitions, even if they contain a `"defn"` key). -/
def Function.get_in_params (value : Value) : Option Value :=
  ((match value with
    | .object o => some o
    | _ => none).bind (fun obj =>
      match obj.length with
      | 1 => some obj
      | _ => none)).bind (fun o => map_get o Function.OPERATOR)

/-- `Function::filter_value`: `some value` if it is a function-shaped node,
`none` otherwise. -/
def Function.filter_value (value : Value) : Option Value :=
  (Function.get_in_params value).bind (fun _ => some value)

/-- `Function::to_parameters`: the parameter list must be an array, and every
element must parse as an `Identifier`.  No uniqueness check is performed by
the source. -/
def Function.to_parameters (value : Value) : Except Error (List Identifier) :=
  match value with
  | .array params =>
      params.mapM (fun param =>
        (Identifier.try_from param).mapError (fun (e : Error) =>
          Error.InvalidArgument value Function.OPERATOR
            ("Could not parse parameter " ++ param.to_string ++ " due to: " ++ e.to_string)))
  | _ =>
      .error (.InvalidArgument value Function.OPERATOR "Parameter list must be an array")

/-- `Function::from_value` from `src/op/func.rs`: attempt to parse a function
from a `Value`.  Returns `ok none` when the value is not function-shaped,
an error when it is function-shaped but malformed, and `ok (some f)` on
success.  Validation order, as in the source: array shape, then length 3,
then the parameter list, then the body-is-not-a-defn check, then the name.
The source checks `vals.len() == 3` and then indexes `vals[0..3]`; here the
length check and the indexing are merged into one three-element list pattern
(equivalent: the fallthrough arm reports the same
`WrongArgumentCount(Exactly(3), vals.len())`). -/
def Function.from_value (value : Value) : Except Error (Option Function) :=
  match Function.get_in_params value with
  | none => .ok none
  | some vals =>
      (match vals with
        | .array v => Except.ok v
        | _ =>
            Except.error (Error.InvalidArgument vals Function.OPERATOR
              "Argument to 'defn' must be an array")).bind (fun v =>
        match v with
        | [name, params, expr] =>
            (Function.to_parameters params).bind (fun ps =>
              (match Function.filter_value expr with
                | some e =>
                    Except.error (Error.InvalidArgument e Function.OPERATOR
                      "A function's body may not be a expression")
                | none => Except.ok expr).bind (fun expr2 =>
                ((Identifier.try_from name).mapError (fun (e : Error) =>
                    Error.InvalidArgument name Function.OPERATOR e.to_string)).map (fun nm =>
                  some (Function.mk nm ps expr2 (.Exactly ps.length)))))
        | other => Except.error (Error.WrongArgumentCount (.Exactly 3) other.length))

/-- `Function::evaluate` from `src/op/func.rs`: the source body is
`todo!()`, which unconditionally panics with "not yet implemented". -/
def Function.evaluate (_self : Function) (_data : Value) : Outcome :=
  .panic "not yet implemented"

/-- `From<Function> for Value` from `src/op/func.rs`: serialize a function
back to JSON.  As in the source, the produced array holds only the parameter
list and the expression (the name is not included). -/
def Function.to_value (func : Function) : Value :=
  let params := Value.array (func.params.map (fun param => Value.string param.value))
  let expression := func.expression
  Value.object [(Function.OPERATOR, Value.array [params, expression])]

end OpFunc

/-- The condition under which, per claim C4, a value is eligible to parse as
a function: an object with exactly one key, named `"defn"`.  Stated from the
claim's words, to be compared against `Function::get_in_params`. -/
def is_single_key_defn_object (v : Value) : Bool :=
  match v with
  | .object o => o.length == 1 && (map_get o OpFunc.Function.OPERATOR).isSome
  | _ => false

/-- The validity predicate claim C7 asserts for `Identifier::new`: at least
two characters (counted as characters, not bytes) and no whitespace
character.  Stated from the claim's words, to be compared against the
byte-counting source. -/
def claim_C7_valid (s : String) : Bool :=
  2 ≤ s.data.length && s.data.all (fun c => !rustIsWhitespace c)

/-! ## Theorems -/

theorem from_number_posInt (n : Nat) :
    JsonNumber.from_number (.PosInt n) = some (.U64 n) := rfl

theorem from_number_negInt (i : Int) :
    JsonNumber.from_number (.NegInt i) = some (.I64 i) := rfl

theorem from_number_float (q : ℚ) :
    JsonNumber.from_number (.Float q) = some (.F64 (.finite q)) := rfl

theorem checked_add_posInt_posInt (m n : Nat) :
    Number.checked_add (.PosInt m) (.PosInt n) = addU64U64 m n := rfl

theorem checked_add_posInt_negInt (m : Nat) (i : Int) :
    Number.checked_add (.PosInt m) (.NegInt i) = addU64I64 m i := rfl

theorem checked_add_negInt_negInt (i j : Int) :
    Number.checked_add (.NegInt i) (.NegInt j) = addI64I64 i j := rfl

theorem checked_add_negInt_posInt (i : Int) (n : Nat) :
    Number.checked_add (.NegInt i) (.PosInt n) =
      if i < 0 then addU64I64 n i else addU64U64 n (i64_as_u64 i) := rfl

/-- C1: checked addition of two JSON numbers preserves integer
representation whenever the exact sum is representable, and degrades
gracefully: unsigned sums that fit `u64` stay integers (`add([1,2]) = 3`,
`add([INT64_MAX as u64, 1])` stays integer); on unsigned overflow the
addition is retried in floating point (`add([UINT64_MAX, 1])` becomes the
float `UINT64_MAX as f64 + 1.0`, i.e. `2^64` in the exact model); and `add`
fails with `OverflowBinaryOp` exactly when the final floating-point result
is non-finite (`add([FLOAT_MAX, FLOAT_MAX])` fails). -/
theorem C1_add_preserves_integers_and_degrades :
    (∀ a b : Nat, a < 2 ^ 64 → b < 2 ^ 64 → a + b < 2 ^ 64 →
      add (.number (.PosInt a)) (.number (.PosInt b)) = .ok (.number (.PosInt (a + b))))
    ∧ (∀ a b : Nat, a < 2 ^ 64 → b < 2 ^ 64 → 2 ^ 64 ≤ a + b →
      add (.number (.PosInt a)) (.number (.PosInt b)) =
        .ok (.number (.Float ((a : ℚ) + (b : ℚ)))))
    ∧ (∀ x y : ℚ, (F64.add (.finite x) (.finite y)).isFinite = true →
      add (.number (.Float x)) (.number (.Float y)) = .ok (.number (.Float (x + y))))
    ∧ (∀ x y : ℚ, (F64.add (.finite x) (.finite y)).isFinite = false →
      add (.number (.Float x)) (.number (.Float y)) =
        .error (.OverflowBinaryOp "add" (number_display (.Float x)) (number_display (.Float y))))
    ∧ add (.number (.PosInt 1)) (.number (.PosInt 2)) = .ok (.number (.PosInt 3))
    ∧ add (.number (.PosInt (2 ^ 63 - 1))) (.number (.PosInt 1)) =
        .ok (.number (.PosInt (2 ^ 63)))
    ∧ add (.number (.PosInt (2 ^ 64 - 1))) (.number (.PosInt 1)) =
        .ok (.number (.Float (2 ^ 64)))
    ∧ add (.number (.Float F64_MAX_Q)) (.number (.Float F64_MAX_Q)) =
        .error (.OverflowBinaryOp "add" (number_display (.Float F64_MAX_Q))
          (number_display (.Float F64_MAX_Q))) := by
  refine ⟨?_, ?_, ?_, ?_, ?_, ?_, ?_, ?_⟩
  · intro a b _ _ hsum
    have hs : a + b < 18446744073709551616 := by omega
    simp [add, checked_add_posInt_posInt, addU64U64, u64_checked_add, hs,
      Number.from_u64, Option.or]
  · intro a b ha hb hsum
    have hqa : (a : ℚ) < 2 ^ 64 := by exact_mod_cast ha
    have hqb : (b : ℚ) < 2 ^ 64 := by exact_mod_cast hb
    have hover : ¬ (F64_OVERFLOW ≤ (a : ℚ) + (b : ℚ)) := by
      rw [F64_OVERFLOW]
      push_neg
      calc (a : ℚ) + (b : ℚ) < 2 ^ 64 + 2 ^ 64 := by linarith
        _ ≤ 2 ^ 1024 := by norm_num
    have hunder : ¬ ((a : ℚ) + (b : ℚ) ≤ -F64_OVERFLOW) := by
      rw [F64_OVERFLOW]
      push_neg
      have h0a : (0 : ℚ) ≤ (a : ℚ) := by positivity
      have h0b : (0 : ℚ) ≤ (b : ℚ) := by positivity
      have : (0 : ℚ) < 2 ^ 1024 := by norm_num
      linarith
    have hnof : ¬ (a + b < 18446744073709551616) := by omega
    simp [add, checked_add_posInt_posInt, addU64U64, u64_checked_add, hnof,
      Option.or, Number.from_f64, F64.add, u64_to_f64, if_neg hover, if_neg hunder]
  · intro x y h
    by_cases hover : F64_OVERFLOW ≤ x + y
    · simp [F64.add, if_pos hover, F64.isFinite] at h
    · by_cases hunder : x + y ≤ -F64_OVERFLOW
      · simp [F64.add, if_neg hover, if_pos hunder, F64.isFinite] at h
      · simp [add, Number.checked_add, from_number_float, addAsF64, Number.as_f64,
          F64.add, if_neg hover, if_neg hunder, Number.from_f64]
  · intro x y h
    by_cases hover : F64_OVERFLOW ≤ x + y
    · simp [add, Number.checked_add, from_number_float, addAsF64, Number.as_f64,
        F64.add, if_pos hover, Number.from_f64]
    · by_cases hunder : x + y ≤ -F64_OVERFLOW
      · simp [add, Number.checked_add, from_number_float, addAsF64, Number.as_f64,
          F64.add, if_neg hover, if_pos hunder, Number.from_f64]
      · simp [F64.add, if_neg hover, if_neg hunder, F64.isFinite] at h
  · norm_num [add, Number.checked_add, JsonNumber.from_number, Number.as_u64, Number.as_i64,
      Number.as_f64, addU64U64, u64_checked_add, Number.from_u64, Option.or]
  · norm_num [add, Number.checked_add, JsonNumber.from_number, Number.as_u64, Number.as_i64,
      Number.as_f64, addU64U64, u64_checked_add, Number.from_u64, Option.or]
  · norm_num [add, Number.checked_add, JsonNumber.from_number, Number.as_u64, Number.as_i64,
      Number.as_f64, addU64U64, u64_checked_add, Number.from_u64, Number.from_f64, F64.add,
      u64_to_f64, F64_OVERFLOW, Option.or]
  · norm_num [add, Number.checked_add, JsonNumber.from_number, Number.as_u64, Number.as_i64,
      Number.as_f64, addAsF64, Number.from_f64, F64.add, F64_OVERFLOW, F64_MAX_Q, Option.or]

/-- Witness for C1: the hypothesised parts instantiated at `1 + 2` (exact
sum fits `u64`), at `(2^64 - 1) + 1` (unsigned overflow retried as float),
and at `FLOAT_MAX + FLOAT_MAX` (non-finite float sum fails). -/
theorem C1_add_preserves_integers_and_degrades_witness :
    add (.number (.PosInt 1)) (.number (.PosInt 2)) = .ok (.number (.PosInt (1 + 2)))
    ∧ add (.number (.PosInt (2 ^ 64 - 1))) (.number (.PosInt 1)) =
        .ok (.number (.Float (((2 ^ 64 - 1 : Nat) : ℚ) + ((1 : Nat) : ℚ))))
    ∧ add (.number (.Float F64_MAX_Q)) (.number (.Float F64_MAX_Q)) =
        .error (.OverflowBinaryOp "add" (number_display (.Float F64_MAX_Q))
          (number_display (.Float F64_MAX_Q))) :=
  ⟨C1_add_preserves_integers_and_degrades.1 1 2 (by norm_num) (by norm_num) (by norm_num),
   C1_add_preserves_integers_and_degrades.2.1 (2 ^ 64 - 1) 1 (by norm_num) (by norm_num)
     (by norm_num),
   C1_add_preserves_integers_and_degrades.2.2.2.1 F64_MAX_Q F64_MAX_Q
     (by norm_num [F64.add, F64_OVERFLOW, F64_MAX_Q, F64.isFinite])⟩

/-- C2: whenever at least one of the two operands is not a JSON number,
`add` fails with `InvalidArgument` whose `operation` field is `"add"` and
whose `value` field is the offending non-number operand (the first operand
when it is not a number, else the second); no coercion is attempted. -/
theorem C2_add_rejects_non_numbers (a b : Value)
    (h : ¬ (a.isNumber = true ∧ b.isNumber = true)) :
    add a b =
      .error (.InvalidArgument (if a.isNumber then b else a) "add"
        "arguments to add must be numbers")
    ∧ (if a.isNumber then b else a).isNumber = false := by
  cases a <;> cases b <;> simp_all [add, Value.isNumber]

/-- Witness for C2 at `add([12, "foo"])`: the error names the string
operand. -/
theorem C2_add_rejects_non_numbers_witness :
    add (.number (.PosInt 12)) (.string "foo") =
      .error (.InvalidArgument
        (if (Value.number (.PosInt 12)).isNumber then Value.string "foo"
          else Value.number (.PosInt 12)) "add" "arguments to add must be numbers")
    ∧ (if (Value.number (.PosInt 12)).isNumber then Value.string "foo"
        else Value.number (.PosInt 12)).isNumber = false :=
  C2_add_rejects_non_numbers (.number (.PosInt 12)) (.string "foo")
    (by simp [Value.isNumber])

/-- C8: each ordering operator applied to a 3-element operand list returns
the boolean AND of comparing operand 1 to 2 and operand 2 to 3 under that
operator's comparison primitive, and applied to a 2-element list returns the
single comparison; in particular `lt([1,2,3]) = true` and
`lt([1,3,2]) = false`. -/
theorem C8_chained_comparison :
    (∀ f : Value → Value → Bool, ∀ a b c : Value,
      compare f [a, b, c] = .ok (.bool (f a b && f b c)))
    ∧ (∀ f : Value → Value → Bool, ∀ a b : Value,
      compare f [a, b] = .ok (.bool (f a b)))
    ∧ (∀ a b c : Value, lt [a, b, c] = .ok (.bool (abstract_lt a b && abstract_lt b c)))
    ∧ (∀ a b c : Value, lte [a, b, c] = .ok (.bool (abstract_lte a b && abstract_lte b c)))
    ∧ (∀ a b c : Value, gt [a, b, c] = .ok (.bool (abstract_gt a b && abstract_gt b c)))
    ∧ (∀ a b c : Value, gte [a, b, c] = .ok (.bool (abstract_gte a b && abstract_gte b c)))
    ∧ (∀ a b : Value, lt [a, b] = .ok (.bool (abstract_lt a b)))
    ∧ (∀ a b : Value, lte [a, b] = .ok (.bool (abstract_lte a b)))
    ∧ (∀ a b : Value, gt [a, b] = .ok (.bool (abstract_gt a b)))
    ∧ (∀ a b : Value, gte [a, b] = .ok (.bool (abstract_gte a b)))
    ∧ lt [.number (.PosInt 1), .number (.PosInt 2), .number (.PosInt 3)] = .ok (.bool true)
    ∧ lt [.number (.PosInt 1), .number (.PosInt 3), .number (.PosInt 2)] = .ok (.bool false) :=
  by
  refine ⟨?_, ?_, ?_, ?_, ?_, ?_, ?_, ?_, ?_, ?_, rfl, rfl⟩ <;> intros <;> rfl

/-- C4: every JSON value that is not an object with exactly one key named
`"defn"` parses as "not a function": `Function::from_value` returns
`Ok(None)`, with no error — in particular for multi-key objects containing a
`"defn"` key. -/
theorem C4_non_defn_values_parse_as_none (v : Value)
    (h : is_single_key_defn_object v = false) :
    OpFunc.Function.from_value v = .ok none := by
  have hg : OpFunc.Function.get_in_params v = none := by
    cases v with
    | object o =>
        have hrepr : OpFunc.Function.get_in_params (.object o) =
            (match o.length with
              | 1 => some o
              | _ => none).bind (fun o => map_get o OpFunc.Function.OPERATOR) := rfl
        cases hl : o.length with
        | zero => rw [hrepr, hl]; rfl
        | succ n =>
            cases n with
            | zero =>
                rw [hrepr, hl]
                simp only [is_single_key_defn_object, hl] at h
                simp only [Option.bind]
                cases hmg : map_get o OpFunc.Function.OPERATOR with
                | none => rfl
                | some w => rw [hmg] at h; simp at h
            | succ m => rw [hrepr, hl]; rfl
    | null => rfl
    | bool b => rfl
    | number n => rfl
    | string s => rfl
    | array l => rfl
  rw [OpFunc.Function.from_value, hg]

/-- Witness for C4 at the multi-key object `{"defn": [1, 2], "foo": 3}`: a
multi-key object containing a `"defn"` key still parses as `Ok(None)`. -/
theorem C4_non_defn_values_parse_as_none_witness :
    OpFunc.Function.from_value
      (.object [("defn", .array [.number (.PosInt 1), .number (.PosInt 2)]),
        ("foo", .number (.PosInt 3))]) = .ok none :=
  C4_non_defn_values_parse_as_none
    (.object [("defn", .array [.number (.PosInt 1), .number (.PosInt 2)]),
      ("foo", .number (.PosInt 3))]) rfl

/-- C3 (code bug): round-tripping fails for every parsed function.
`From<Function> for Value` serializes only `[params, expression]` — the
function's name is dropped — so re-parsing the serialized value always fails
with `WrongArgumentCount` (expected exactly 3, got 2) instead of
reconstructing the function. -/
theorem C3_roundtrip_fails (f : OpFunc.Function) :
    OpFunc.Function.from_value (OpFunc.Function.to_value f) =
      .error (.WrongArgumentCount (.Exactly 3) 2) := rfl

/-- C6 (code bug): a `defn` whose parameter list contains the same name
twice parses successfully — `Function::to_parameters` performs no
uniqueness check — contradicting the spec's requirement that parameter
names be unique. -/
theorem C6_duplicate_params_accepted :
    OpFunc.Function.from_value
      (.object [("defn", .array [.string "foo",
        .array [.string "ab", .string "ab"], .number (.PosInt 12)])]) =
      .ok (some (OpFunc.Function.mk ⟨"foo"⟩ [⟨"ab"⟩, ⟨"ab"⟩]
        (.number (.PosInt 12)) (.Exactly 2))) := rfl

/-- C9 (code bug): `Function::evaluate` never returns a value or an error —
its body is `todo!()`, so every call panics. -/
theorem C9_evaluate_always_panics (f : OpFunc.Function) (data : Value) :
    OpFunc.Function.evaluate f data = .panic "not yet implemented" := rfl

/-- Counterexample to C5 at `{"defn": [12, 34, 56]}` (invalid name 12 and
invalid parameter list 34): `Function::from_value` fails with the
parameter-list `InvalidArgument` (value 34), not with the `InvalidArgument`
wrapping the name's identifier error (which would carry value 12), because
the source validates the parameter list before the name. -/
theorem C5_counterexample :
    OpFunc.Function.from_value
      (.object [("defn", .array [.number (.PosInt 12), .number (.PosInt 34),
        .number (.PosInt 56)])]) =
      .error (.InvalidArgument (.number (.PosInt 34)) "defn"
        "Parameter list must be an array")
    ∧ (Error.InvalidArgument (.number (.PosInt 34)) "defn"
        "Parameter list must be an array" ≠
      Error.InvalidArgument (.number (.PosInt 12)) "defn"
        (Error.to_string (.InvalidIdentifier
          (Value.to_string (.number (.PosInt 12)))))) := by
  refine ⟨rfl, ?_⟩
  intro h
  injection h with h1 h2 h3
  injection h1 with h4
  injection h4 with h5
  exact absurd h5 (by norm_num)

/-- C5 (amended): `defn` validation checks the parameter list (element 2)
*before* the function name (element 1): for every single-key `"defn"` object
whose value is a 3-element array and whose parameter list is not an array,
`from_value` fails with the parameter-list `InvalidArgument` error,
regardless of whether the name is valid. -/
theorem C5_params_validated_before_name (name params expr : Value)
    (hp : ∀ l, params ≠ .array l) :
    OpFunc.Function.from_value (.object [("defn", .array [name, params, expr])]) =
      .error (.InvalidArgument params "defn" "Parameter list must be an array") := by
  cases params with
  | array l => exact absurd rfl (hp l)
  | null => rfl
  | bool b => rfl
  | number n => rfl
  | string s => rfl
  | object o => rfl

/-- Witness for the amended C5 at `{"defn": [12, 34, 56]}`: both the name
and the parameter list are invalid, and the parameter-list error is the one
reported. -/
theorem C5_params_validated_before_name_witness :
    OpFunc.Function.from_value
      (.object [("defn", .array [.number (.PosInt 12), .number (.PosInt 34),
        .number (.PosInt 56)])]) =
      .error (.InvalidArgument (.number (.PosInt 34)) "defn"
        "Parameter list must be an array") :=
  C5_params_validated_before_name (.number (.PosInt 12)) (.number (.PosInt 34))
    (.number (.PosInt 56)) (fun _ h => Value.noConfusion h)

/-- Counterexample to C7 at the one-character, two-byte string `"é"`:
`Identifier::new` (the `src/func.rs` variant, minimum length 2) measures
`value.len()` in UTF-8 bytes, so it accepts `"é"` even though the string has
fewer than two characters and the claim's character-counted predicate
rejects it. -/
theorem C7_counterexample :
    FuncMod.Identifier.new "é" = .ok ⟨"é"⟩
    ∧ claim_C7_valid "é" = false
    ∧ ("é".data.length = 1 ∧ rustStrLen "é" = 2) :=
  ⟨rfl, rfl, rfl, rfl⟩

/-- C7 (amended): `Identifier::new(s)` (the `src/func.rs` variant) succeeds
iff `s` has at least 2 UTF-8 *bytes* (`value.len()` in Rust — not counted in
characters) and contains no whitespace character (whitespace is checked per
character); otherwise it fails with `InvalidIdentifier` carrying `s`. -/
theorem C7_identifier_new_byte_counted (s : String) :
    FuncMod.Identifier.new s =
      if 2 ≤ rustStrLen s ∧ s.data.all (fun c => !rustIsWhitespace c) then
        .ok ⟨s⟩
      else .error (.InvalidIdentifier s) := by
  unfold FuncMod.Identifier.new
  by_cases h1 : rustStrLen s < 2
  · rw [if_pos h1, if_neg]
    intro hc
    omega
  · rw [if_neg h1]
    by_cases h2 : s.data.any rustIsWhitespace
    · rw [if_pos h2, if_neg]
      intro hc
      rcases List.any_eq_true.mp h2 with ⟨c, hc1, hc2⟩
      have := List.all_eq_true.mp hc.2 c hc1
      simp [hc2] at this
    · rw [if_neg h2, if_pos]
      refine ⟨by omega, List.all_eq_true.mpr ?_⟩
      intro c hc
      by_contra hw
      exact h2 (List.any_eq_true.mpr ⟨c, hc, by simpa using hw⟩)

theorem F64_add_comm (x y : F64) : F64.add x y = F64.add y x := by
  cases x <;> cases y <;> simp [F64.add, add_comm]

theorem addU64U64_comm (m n : Nat) : addU64U64 m n = addU64U64 n m := by
  unfold addU64U64 u64_checked_add
  rw [Nat.add_comm m n, F64_add_comm]

theorem addAsF64_comm (x y : Number) : addAsF64 x y = addAsF64 y x := by
  unfold addAsF64
  cases hx : Number.as_f64 x <;> cases hy : Number.as_f64 y <;>
    simp [Option.bind, F64_add_comm]

theorem addI64I64_int_path (x y : Int) (hx2 : x < 0) (hy2 : y < 0)
    (hym : y ≠ -(2 ^ 63)) (hsum : -(2 ^ 63) ≤ x + y) :
    addI64I64 x y = some (.NegInt (x + y)) := by
  unfold addI64I64
  rw [if_pos hy2, i64_checked_abs, if_neg hym,
    Int.ofNat_natAbs_of_nonpos (le_of_lt hy2)]
  simp only [Option.some_bind]
  rw [i64_checked_sub, if_pos (by constructor <;> omega), sub_neg_eq_add]
  simp [Option.or, Number.from_i64, if_pos (show x + y < 0 by omega)]

/-- Counterexample to C10 at `a = -1`, `b = i64::MIN` (both well-formed JSON
numbers): the two orders of `checked_add` both succeed but return different
floats of opposite sign, because the signed float fallback computes
`first as f64 - second as f64` with the original negative `second`. -/
theorem C10_counterexample :
    Number.checked_add (.NegInt (-1)) (.NegInt (-(2 ^ 63))) =
      some (.Float (2 ^ 63 - 1))
    ∧ Number.checked_add (.NegInt (-(2 ^ 63))) (.NegInt (-1)) =
      some (.Float (-(2 ^ 63) + 1))
    ∧ Number.checked_add (.NegInt (-1)) (.NegInt (-(2 ^ 63))) ≠
      Number.checked_add (.NegInt (-(2 ^ 63))) (.NegInt (-1)) := by
  have h1 : Number.checked_add (.NegInt (-1)) (.NegInt (-(2 ^ 63))) =
      some (.Float (2 ^ 63 - 1)) := by
    norm_num [Number.checked_add, JsonNumber.from_number, Number.as_u64, Number.as_i64,
      Number.as_f64, addI64I64, i64_checked_abs, i64_checked_sub, Number.from_i64,
      Number.from_f64, F64.sub, i64_to_f64, F64_OVERFLOW, Option.or]
  have h2 : Number.checked_add (.NegInt (-(2 ^ 63))) (.NegInt (-1)) =
      some (.Float (-(2 ^ 63) + 1)) := by
    norm_num [Number.checked_add, JsonNumber.from_number, Number.as_u64, Number.as_i64,
      Number.as_f64, addI64I64, i64_checked_abs, i64_checked_sub, Number.from_i64,
      Number.from_f64, F64.sub, i64_to_f64, F64_OVERFLOW, Option.or]
  refine ⟨h1, h2, ?_⟩
  rw [h1, h2]
  intro h
  injection h with h3
  injection h3 with h4
  norm_num at h4

/-- C10 (amended): `checked_add` is commutative for all pairs of well-formed
JSON numbers *except* pairs of negative signed integers that hit the float
fallback (an operand is `i64::MIN`, or the exact sum is below `i64::MIN`)
with distinct operands — there the fallback's `first - second` makes the two
orders differ (see the counterexample).  Under the stated side condition the
two orders always return the same result. -/
theorem C10_checked_add_comm (a b : Number) (ha : a.WF) (hb : b.WF)
    (h : ∀ x y : Int, a = .NegInt x → b = .NegInt y →
      x = y ∨ (x ≠ -(2 ^ 63) ∧ y ≠ -(2 ^ 63) ∧ -(2 ^ 63) ≤ x + y)) :
    Number.checked_add a b = Number.checked_add b a := by
  cases a with
  | PosInt m =>
      cases b with
      | PosInt n => exact addU64U64_comm m n
      | NegInt i =>
          show addU64I64 m i = if i < 0 then addU64I64 m i else addU64U64 m (i64_as_u64 i)
          rw [if_pos hb.2]
      | Float q => exact addAsF64_comm _ _
  | NegInt i =>
      cases b with
      | PosInt m =>
          show (if i < 0 then addU64I64 m i else addU64U64 m (i64_as_u64 i)) = addU64I64 m i
          rw [if_pos ha.2]
      | NegInt j =>
          show addI64I64 i j = addI64I64 j i
          rcases h i j rfl rfl with heq | ⟨him, hjm, hsum⟩
          · rw [heq]
          · rw [addI64I64_int_path i j ha.2 hb.2 hjm hsum,
              addI64I64_int_path j i hb.2 ha.2 him (by omega), Int.add_comm]
      | Float q => exact addAsF64_comm _ _
  | Float q =>
      cases b with
      | PosInt m => exact addAsF64_comm _ _
      | NegInt i => exact addAsF64_comm _ _
      | Float r => exact addAsF64_comm _ _

/-- Witness for the amended C10 at `a = -2`, `b = -3`: two negative signed
integers on the integer path commute. -/
theorem C10_checked_add_comm_witness :
    Number.checked_add (.NegInt (-2)) (.NegInt (-3)) =
      Number.checked_add (.NegInt (-3)) (.NegInt (-2)) :=
  C10_checked_add_comm (.NegInt (-2)) (.NegInt (-3))
    (by refine ⟨?_, ?_⟩ <;> norm_num)
    (by refine ⟨?_, ?_⟩ <;> norm_num)
    (fun x y hx hy => by
      injection hx with hx'
      injection hy with hy'
      subst hx'
      subst hy'
      right
      refine ⟨by norm_num, by norm_num, by norm_num⟩)

end JsonLogicPlus
